import Mathlib

/-!
Verification of the Medicagent repository slice: the chat front-end
(types/chat.ts, lib/api.ts, the Chat component and the Message component)
and, modelled from the specification, the multi-agent orchestration and
human-validation state machine whose backend sources are not part of the
visible slice.
-/

/-- Minimal JSON value model, used to describe the bodies the front-end
serialises with JSON.stringify. -/
inductive JValue
  | str (s : String)
  | arr (xs : List JValue)
  | obj (fields : List (String × JValue))

/-- Role of a chat message, from types/chat.ts (`'user' | 'assistant' | 'system'`). -/
inductive Role
  | user
  | assistant
  | system
deriving DecidableEq

/-- Front-end chat message, from the `Message` interface in types/chat.ts. -/
structure Message where
  role : Role
  content : String
  image : Option String := none
  agent : Option String := none
  resultImage : Option String := none
deriving DecidableEq

/-- Response shape of /chat and /upload, from the `ChatResponse` interface in
types/chat.ts: fields status, response, agent and optional result_image. -/
structure ChatResponse where
  status : String
  response : String
  agent : String
  result_image : Option String := none
deriving DecidableEq

/-- Response shape of /validate, from the `ValidationResponse` interface in
types/chat.ts: fields status, message and response. -/
structure ValidationResponse where
  status : String
  message : String
  response : String
deriving DecidableEq

/-- Request body of /generate-speech, from the `SpeechRequest` interface in
types/chat.ts: field text, optional voice_id and language. -/
structure SpeechRequest where
  text : String
  voice_id : Option String := none
  language : Option String := none
deriving DecidableEq

/-- JavaScript's `String.prototype.startsWith`, modelled on the character
list underlying a Lean string. -/
def jsStartsWith (s p : String) : Bool :=
  p.data.isPrefixOf s.data

/-- String suffix test, used to state which endpoint a request targets. -/
def jsEndsWith (s p : String) : Bool :=
  p.data.isSuffixOf s.data

/-- JavaScript's `String.prototype.trim`, modelled structurally on the
character list underlying a Lean string: whitespace is stripped from both
ends. -/
def jsTrim (s : String) : String :=
  String.mk (((s.data.dropWhile Char.isWhitespace).reverse.dropWhile
    Char.isWhitespace).reverse)

/-- Default API base URL from lib/api.ts
(`process.env.NEXT_PUBLIC_API_URL || 'http://localhost:8000'`). -/
def defaultApiBaseUrl : String := "http://localhost:8000"

/-- API base URL resolution from lib/api.ts: the environment value when set
and non-empty (JavaScript truthiness of `||`), the default otherwise. -/
def apiBaseUrl (env : Option String) : String :=
  match env with
  | some s => if s = "" then defaultApiBaseUrl else s
  | none => defaultApiBaseUrl

/-- Outcome of a fetch call, as seen by the api.ts wrappers: either an ok
response carrying a parsed body, or a failed response (non-2xx / network). -/
inductive FetchOutcome (α : Type)
  | success (body : α)
  | failure
deriving DecidableEq

/-- A request whose body is sent as JSON. -/
structure JsonRequest where
  url : String
  fields : List (String × JValue)

/-- A request whose body is sent as FormData. -/
structure FormRequest where
  url : String
  fields : List (String × String)
deriving DecidableEq

/-- Request built by `sendChatMessage` in lib/api.ts: POST to
`${API_BASE_URL}/api/chat` with JSON body
`{ query: message, conversation_history: [] }`. -/
def sendChatMessageRequest (baseUrl message : String) : JsonRequest :=
  { url := baseUrl ++ "/api/chat",
    fields := [("query", JValue.str message), ("conversation_history", JValue.arr [])] }

/-- Response handling of `sendChatMessage` in lib/api.ts: a non-ok response
throws, an ok response is returned as parsed JSON. -/
def sendChatMessage (out : FetchOutcome ChatResponse) : Except String ChatResponse :=
  match out with
  | .success body => .ok body
  | .failure => .error ("Failed to send message")

/-- Request built by `uploadImage` in lib/api.ts: POST to
`${API_BASE_URL}/api/upload` with FormData fields image and text. -/
def uploadImageRequest (baseUrl image text : String) : FormRequest :=
  { url := baseUrl ++ "/api/upload",
    fields := [("image", image), ("text", text)] }

/-- Post-processing of the /upload response in `uploadImage`
(lib/api.ts): when `data.result_image` is truthy (present and non-empty)
and does not start with "http", it is prefixed with the API base URL;
otherwise the data is returned as received. -/
def uploadImageAdjust (baseUrl : String) (d : ChatResponse) : ChatResponse :=
  match d.result_image with
  | some s =>
      if s ≠ "" ∧ jsStartsWith s ("http") = false then
        { d with result_image := some (baseUrl ++ s) }
      else d
  | none => d

/-- Response handling of `uploadImage` in lib/api.ts: a non-ok response
throws, an ok response is post-processed by `uploadImageAdjust`. -/
def uploadImage (baseUrl : String) (out : FetchOutcome ChatResponse) :
    Except String ChatResponse :=
  match out with
  | .success d => .ok (uploadImageAdjust baseUrl d)
  | .failure => .error ("Failed to upload image")

/-- Request built by `sendValidation` in lib/api.ts: POST to
`${API_BASE_URL}/api/validate` with FormData fields validation_result and
comments. -/
def sendValidationRequest (baseUrl validation comments : String) : FormRequest :=
  { url := baseUrl ++ "/api/validate",
    fields := [("validation_result", validation), ("comments", comments)] }

/-- Response handling of `sendValidation` in lib/api.ts: a non-ok response
throws, an ok response is returned as parsed JSON. -/
def sendValidation (out : FetchOutcome ValidationResponse) : Except String ValidationResponse :=
  match out with
  | .success body => .ok body
  | .failure => .error ("Failed to send validation")

/-- JSON body produced by `JSON.stringify(request)` for a SpeechRequest in
`generateSpeech` (lib/api.ts): the text field always, voice_id and language
only when present. -/
def speechRequestFields (r : SpeechRequest) : List (String × JValue) :=
  [("text", JValue.str r.text)]
    ++ (match r.voice_id with
        | some v => [("voice_id", JValue.str v)]
        | none => [])
    ++ (match r.language with
        | some l => [("language", JValue.str l)]
        | none => [])

/-- Request built by `generateSpeech` in lib/api.ts: POST to
`${API_BASE_URL}/api/generate-speech` with the serialised SpeechRequest. -/
def generateSpeechRequest (baseUrl : String) (r : SpeechRequest) : JsonRequest :=
  { url := baseUrl ++ "/api/generate-speech", fields := speechRequestFields r }

/-- Response handling of `generateSpeech` in lib/api.ts: a non-ok response
throws, an ok response's binary blob is returned unchanged. -/
def generateSpeech (out : FetchOutcome (List Nat)) : Except String (List Nat) :=
  match out with
  | .success payload => .ok payload
  | .failure => .error ("Failed to generate speech")

/-- State of the Chat component (Chat.tsx): the message list, the input
field, the selected image (a data URL) and the isProcessing flag. -/
structure ChatState where
  messages : List Message
  input : String
  selectedImage : Option String
  isProcessing : Bool
deriving DecidableEq

/-- Initial greeting message of the Chat component. -/
def initialGreeting : Message :=
  { role := .assistant,
    content := "Chao ban, toi la he thong Medicagent." }

/-- Outcome of the backend call awaited inside `handleSendMessage`: the
parsed response on success, or a thrown error. -/
inductive TurnOutcome
  | success (resp : ChatResponse)
  | failure
deriving DecidableEq

/-- Outcome of the backend call awaited inside `handleValidation`. -/
inductive ValidationOutcome
  | success (resp : ValidationResponse)
  | failure
deriving DecidableEq

/-- An API call issued by the Chat component. -/
inductive ApiCall
  | chatCall (req : JsonRequest)
  | uploadCall (req : FormRequest)
  | validateCall (req : FormRequest)

/-- Guard at the top of `handleSendMessage` (Chat.tsx):
`if ((!input.trim() && !selectedImage) || isProcessing) return;`. -/
def sendGuard (s : ChatState) : Bool :=
  (jsTrim s.input == "" && s.selectedImage == none) || s.isProcessing

/-- User message appended by `handleSendMessage`:
`{ role: 'user', content: input.trim(), image: selectedImage || undefined }`. -/
def sentUserMessage (s : ChatState) : Message :=
  { role := .user, content := jsTrim s.input, image := s.selectedImage }

/-- Error text appended by `handleSendMessage` when the backend call throws. -/
def sendErrorText : String :=
  "Sorry, there was an error processing your request. Please try again."

/-- Reply appended by `handleSendMessage` after the backend call: an
assistant message built from the response on success, a system error
message on failure. -/
def sentReply (oc : TurnOutcome) : Message :=
  match oc with
  | .success r =>
      { role := .assistant, content := r.response, agent := some r.agent,
        resultImage := r.result_image }
  | .failure => { role := .system, content := sendErrorText }

/-- The `handleSendMessage` handler of the Chat component (Chat.tsx),
modelled as one atomic step: the guard check, the append of the user
message, the clearing of input and selected image, the /upload or /chat
call (upload when an image is selected), the append of the reply, and the
reset of isProcessing. Returns the new state and the API call issued, if
any. -/
def handleSendMessage (baseUrl : String) (s : ChatState) (oc : TurnOutcome) :
    ChatState × Option ApiCall :=
  if sendGuard s then (s, none)
  else
    let call : ApiCall :=
      match s.selectedImage with
      | some img => .uploadCall (uploadImageRequest baseUrl img (jsTrim s.input))
      | none => .chatCall (sendChatMessageRequest baseUrl (jsTrim s.input))
    ({ messages := s.messages ++ [sentUserMessage s, sentReply oc],
       input := "", selectedImage := none, isProcessing := false },
     some call)

/-- The validation choice offered by the Message component (Message.tsx):
the Yes button calls `handleValidation('yes')`, the No button
`handleValidation('no')`. -/
inductive ValidationChoice
  | yes
  | no
deriving DecidableEq

/-- String submitted for a validation choice by the Message component. -/
def validationChoiceValue : ValidationChoice → String
  | .yes => "yes"
  | .no => "no"

/-- Error text appended by `handleValidation` when the backend call throws. -/
def validationErrorText : String :=
  "Sorry, there was an error processing your validation. Please try again."

/-- Reply appended by `handleValidation` (Chat.tsx): an assistant message
carrying the response text and the agent tag HUMAN_VALIDATED on success, a
system error message on failure. -/
def validationReply (oc : ValidationOutcome) : Message :=
  match oc with
  | .success r =>
      { role := .assistant, content := r.response,
        agent := some ("HUMAN_VALIDATED") }
  | .failure => { role := .system, content := validationErrorText }

/-- The `handleValidation` handler of the Chat component (Chat.tsx),
modelled as one atomic step: the sendValidation call and the append of the
reply, with isProcessing reset at the end. -/
def handleValidation (baseUrl : String) (s : ChatState)
    (validation comments : String) (oc : ValidationOutcome) :
    ChatState × ApiCall :=
  ({ s with messages := s.messages ++ [validationReply oc],
            isProcessing := false },
   .validateCall (sendValidationRequest baseUrl validation comments))

/-- System message installed by `clearChat` (Chat.tsx). -/
def clearGreeting : Message :=
  { role := .system, content := "Xin chao, hay tiep tuc voi Medicagent nhe!" }

/-- The `clearChat` handler of the Chat component: resets the message list
to a single system greeting; input, selected image and isProcessing are
untouched. -/
def clearChat (s : ChatState) : ChatState :=
  { s with messages := [clearGreeting] }

/-- The operations of the Chat component that can touch its state. -/
inductive ChatOp
  | send (oc : TurnOutcome)
  | validate (choice : ValidationChoice) (comments : String) (oc : ValidationOutcome)
  | typeInput (text : String)
  | attachImage (dataUrl : String)
  | removeImage
  | clear

/-- One step of the Chat component: dispatch of a ChatOp to the handler
that implements it in Chat.tsx. -/
def chatStep (baseUrl : String) (s : ChatState) : ChatOp → ChatState × Option ApiCall
  | .send oc => handleSendMessage baseUrl s oc
  | .validate choice comments oc =>
      let r := handleValidation baseUrl s (validationChoiceValue choice) comments oc
      (r.fst, some r.snd)
  | .typeInput t => ({ s with input := t }, none)
  | .attachImage d => ({ s with selectedImage := some d }, none)
  | .removeImage => ({ s with selectedImage := none }, none)
  | .clear => (clearChat s, none)

/-- Modelled from the spec: status of an AgentResult (`ok` | `error`),
section 3 of the specification; the backend sources are not in the visible
slice. -/
inductive AgentStatus
  | ok
  | error
deriving DecidableEq

/-- Modelled from the spec: the closed set of agent identifiers
{Conversation, Retrieval, Search, BrainTumor, ChestXray, SkinLesion}
(sections 4.1 and 9). -/
inductive AgentId
  | conversation
  | retrieval
  | search
  | brainTumor
  | chestXray
  | skinLesion
deriving DecidableEq

/-- Modelled from the spec: the three vision agents of section 4.5. -/
inductive VisionAgent
  | brainTumor
  | chestXray
  | skinLesion
deriving DecidableEq

/-- Embedding of a vision agent into the full agent identifier set. -/
def VisionAgent.toAgentId : VisionAgent → AgentId
  | .brainTumor => AgentId.brainTumor
  | .chestXray => AgentId.chestXray
  | .skinLesion => AgentId.skinLesion

/-- Display tag of an agent, as carried in response envelopes. -/
def AgentId.tag : AgentId → String
  | .conversation => "CONVERSATION"
  | .retrieval => "MEDICAL_RAG"
  | .search => "WEB_SEARCH"
  | .brainTumor => "BRAIN_TUMOR"
  | .chestXray => "CHEST_XRAY"
  | .skinLesion => "SKIN_LESION"

/-- Modelled from the spec: AgentResult (section 3) — status, response
text, originating agent, optional result image, requiresValidation flag,
optional structured payload (label and confidence for vision agents). -/
structure AgentResult where
  status : AgentStatus
  response : String
  agent : AgentId
  result_image : Option String := none
  requiresValidation : Bool := false
  label : Option String := none
  confidence : Option Rat := none
deriving DecidableEq

/-- Modelled from the spec: a Turn of the session history (section 3) —
role, textual content, optional attached image (binary), optional result
image, optional agent tag; immutable once appended. -/
structure Turn where
  role : Role
  content : String
  image : Option (List Nat) := none
  resultImage : Option String := none
  agent : Option String := none
deriving DecidableEq

/-- Modelled from the spec: PendingValidation (section 3) — the AgentResult
awaiting confirmation, the agent that produced it, a creation timestamp. -/
structure PendingValidation where
  result : AgentResult
  agent : AgentId
  createdAt : Nat
deriving DecidableEq

/-- Modelled from the spec: a Session (section 3) — the append-only history
of Turns and the at-most-one pending validation. -/
structure Session where
  history : List Turn
  pending : Option PendingValidation
deriving DecidableEq

/-- Modelled from the spec: the input of one turn — text and/or image
bytes (section 4.1). -/
structure TurnInput where
  text : String
  image : Option (List Nat) := none
deriving DecidableEq

/-- Modelled from the spec: raw output of a vision inference backend — a
label and a confidence score; `valid := false` stands for a NaN or
otherwise unusable score (section 4.5). -/
structure InferOut where
  label : String
  confidence : Rat
  valid : Bool
deriving DecidableEq

/-- Modelled from the spec: the image modality detected by the Router for
an image turn (section 4.2). -/
inductive Modality
  | brainMri
  | chestXr
  | skinLes
deriving DecidableEq

/-- Modelled from the spec: the Router's decision (section 3) — selected
agent and, for image turns, detected modality. -/
structure Classification where
  agent : AgentId
  modality : Option Modality := none
deriving DecidableEq

/-- Modelled from the spec: the external collaborators behind the agents
(vision inference, retrieval, search providers, conversation model) and the
routing predicates, all injected so the orchestrator stays a pure
function. -/
structure Backends where
  detect : List Nat → Option Modality
  inferBrain : List Nat → InferOut
  inferChest : List Nat → InferOut
  inferSkin : List Nat → InferOut
  converse : String → List Turn → String
  retrieve : String → List String
  search1 : String → Option String
  search2 : String → Option String
  isKnowledge : String → Bool
  needsExternal : String → Bool
  threshold : Rat

/-- Modelled from the spec: a vision agent (section 4.5) — the image is
validated before inference; an out-of-range or invalid confidence is an
error, never silently clamped; confidence below the threshold flags low
confidence in the response text; every produced AgentResult sets
requiresValidation to true. -/
def visionHandle (a : VisionAgent) (threshold : Rat)
    (infer : List Nat → InferOut) (img : List Nat) : AgentResult :=
  if img.isEmpty then
    { status := .error,
      response := "could not analyze: empty or undecodable image",
      agent := a.toAgentId, requiresValidation := true }
  else
    let o := infer img
    if o.valid = false ∨ o.confidence < 0 ∨ 1 < o.confidence then
      { status := .error,
        response := "inference backend returned an invalid confidence score",
        agent := a.toAgentId, requiresValidation := true }
    else if o.confidence < threshold then
      { status := .ok,
        response := ("low confidence finding: ") ++ o.label,
        agent := a.toAgentId, requiresValidation := true,
        label := some o.label, confidence := some o.confidence }
    else
      { status := .ok, response := o.label,
        agent := a.toAgentId, requiresValidation := true,
        label := some o.label, confidence := some o.confidence }

/-- Modelled from the spec: the Retrieval agent (section 4.3) — an empty
result set falls back to a "no matching documents" answer with status ok. -/
def retrievalHandle (chunks : List String) : AgentResult :=
  if chunks.isEmpty then
    { status := .ok, response := "no matching documents", agent := .retrieval }
  else
    { status := .ok, response := String.intercalate ("\n") chunks,
      agent := .retrieval }

/-- Modelled from the spec: the Search agent (section 4.4) — partial
provider failure is tolerated; only total failure of all providers yields
an error status. -/
def searchHandle (r1 r2 : Option String) : AgentResult :=
  match r1, r2 with
  | none, none =>
      { status := .error, response := "all search providers failed",
        agent := .search }
  | some a, none => { status := .ok, response := a, agent := .search }
  | none, some b => { status := .ok, response := b, agent := .search }
  | some a, some b =>
      { status := .ok, response := a ++ ("\n") ++ b, agent := .search }

/-- Modelled from the spec: the Conversation agent (section 4.1), the
general dialogue fallback. -/
def conversationHandle (reply : String) : AgentResult :=
  { status := .ok, response := reply, agent := .conversation }

/-- Modelled from the spec: the Router (section 4.2) — an attached image is
classified by modality and routed to the matching vision agent, with a
Conversation fallback on undetectable modality; otherwise text intent
selects Retrieval, then Search, then Conversation. -/
def route (b : Backends) (input : TurnInput) : Classification :=
  match input.image with
  | some img =>
      match b.detect img with
      | some .brainMri => { agent := .brainTumor, modality := some .brainMri }
      | some .chestXr => { agent := .chestXray, modality := some .chestXr }
      | some .skinLes => { agent := .skinLesion, modality := some .skinLes }
      | none => { agent := .conversation }
  | none =>
      if b.isKnowledge input.text then { agent := .retrieval }
      else if b.needsExternal input.text then { agent := .search }
      else { agent := .conversation }

/-- Modelled from the spec: dispatch of a classified turn to the selected
agent through the uniform agent contract (section 4.1). -/
def runAgent (b : Backends) (c : Classification) (input : TurnInput)
    (history : List Turn) : AgentResult :=
  match c.agent with
  | .conversation => conversationHandle (b.converse input.text history)
  | .retrieval => retrievalHandle (b.retrieve input.text)
  | .search => searchHandle (b.search1 input.text) (b.search2 input.text)
  | .brainTumor =>
      visionHandle .brainTumor b.threshold b.inferBrain (input.image.getD [])
  | .chestXray =>
      visionHandle .chestXray b.threshold b.inferChest (input.image.getD [])
  | .skinLesion =>
      visionHandle .skinLesion b.threshold b.inferSkin (input.image.getD [])

/-- Modelled from the spec: the error taxonomy of the orchestrator entry
points (sections 4.7 and 7). -/
inductive OrchError
  | validationPending
  | noPendingValidation
deriving DecidableEq

/-- Modelled from the spec: the unified response envelope returned by the
orchestrator (section 4.7). -/
structure ResponseEnvelope where
  status : String
  response : String
  agent : String
  result_image : Option String := none
  requiresValidation : Bool := false
deriving DecidableEq

/-- User turn appended to the session history for an incoming input. -/
def userTurnOf (input : TurnInput) : Turn :=
  { role := .user, content := input.text, image := input.image }

/-- Assistant turn recording a finalized agent result in the history. -/
def assistantTurnOf (r : AgentResult) : Turn :=
  { role := .assistant, content := r.response,
    resultImage := r.result_image, agent := some r.agent.tag }

/-- Modelled from the spec: `processTurn` (section 4.7) — a session whose
gate is PENDING is rejected with the pending-validation error before
anything else; otherwise Router, agent, gate transition and session update
run in sequence: an error result is surfaced without a gate change, a
result with requiresValidation is held (not appended as final) and the
session enters PENDING, any other result is finalized directly. -/
def processTurn (b : Backends) (now : Nat) (s : Session) (input : TurnInput) :
    Except OrchError (Session × ResponseEnvelope) :=
  if s.pending.isSome then .error .validationPending
  else
    let c := route b input
    let r := runAgent b c input s.history
    if r.status = .error then
      .ok ({ history := s.history ++ [userTurnOf input, assistantTurnOf r],
             pending := none },
           { status := "error", response := r.response, agent := r.agent.tag })
    else if r.requiresValidation then
      .ok ({ history := s.history ++ [userTurnOf input],
             pending := some { result := r, agent := r.agent, createdAt := now } },
           { status := "PENDING_VALIDATION", response := r.response,
             agent := r.agent.tag, result_image := r.result_image,
             requiresValidation := true })
    else
      .ok ({ history := s.history ++ [userTurnOf input, assistantTurnOf r],
             pending := none },
           { status := "success", response := r.response, agent := r.agent.tag,
             result_image := r.result_image })

/-- Turn appended to the history when a held result is accepted: the held
AgentResult finalized under the HUMAN_VALIDATED tag (section 4.6, accept
path). -/
def validatedTurnOf (pv : PendingValidation) : Turn :=
  { role := .assistant, content := pv.result.response,
    resultImage := pv.result.result_image,
    agent := some ("HUMAN_VALIDATED") }

/-- System note appended to the history when a held result is rejected
(section 4.6, reject path). -/
def rejectionNoteOf (comments : String) : Turn :=
  { role := .system,
    content := ("Result rejected by the user. Comments: ") ++ comments }

/-- Modelled from the spec: `processValidation` (sections 4.6 and 4.7) — it
requires gate state PENDING and fails with the no-pending error otherwise;
outcome yes appends the held result to the history as final, outcome no
discards it and appends a rejection note; both paths return the gate to
NONE. -/
def processValidation (s : Session) (outcome : Bool) (comments : String) :
    Except OrchError (Session × ValidationResponse) :=
  match s.pending with
  | none => .error .noPendingValidation
  | some pv =>
      if outcome then
        .ok ({ history := s.history ++ [validatedTurnOf pv], pending := none },
             { status := "success", message := "Validation recorded",
               response := pv.result.response })
      else
        .ok ({ history := s.history ++ [rejectionNoteOf comments], pending := none },
             { status := "success", message := "Rejection recorded",
               response := ("Result rejected. ") ++ comments })

/-- End-to-end validation submission: the Message component submits the
choice as its wire string, the modelled backend resolves the pending item,
and the Chat component's handleValidation appends the resulting reply to
its message list. Returns the new session and the new front-end state. -/
def validationRoundTrip (baseUrl : String) (sess : Session) (fs : ChatState)
    (choice : ValidationChoice) (comments : String) : Session × ChatState :=
  let v := validationChoiceValue choice
  match processValidation sess (v == ("yes")) comments with
  | .ok (sess2, resp) =>
      (sess2, (handleValidation baseUrl fs v comments (.success resp)).fst)
  | .error _ =>
      (sess, (handleValidation baseUrl fs v comments .failure).fst)

/-- Sample inference backend used by concrete instantiations. -/
def sampleInfer : List Nat → InferOut :=
  fun _ => { label := "glioma", confidence := 9/10, valid := true }

/-- Sample collaborator set used by concrete instantiations. -/
def sampleBackends : Backends :=
  { detect := fun _ => some .brainMri,
    inferBrain := sampleInfer,
    inferChest := sampleInfer,
    inferSkin := sampleInfer,
    converse := fun _ _ => "hello",
    retrieve := fun _ => [],
    search1 := fun _ => none,
    search2 := fun _ => none,
    isKnowledge := fun _ => false,
    needsExternal := fun _ => false,
    threshold := 1/2 }

/-- Sample brain-tumor diagnostic result held pending validation. -/
def sampleResult : AgentResult :=
  { status := .ok, response := "glioma detected", agent := .brainTumor,
    requiresValidation := true }

/-- Sample pending-validation record. -/
def samplePending : PendingValidation :=
  { result := sampleResult, agent := .brainTumor, createdAt := 0 }

/-- Sample session holding a pending diagnostic result. -/
def samplePendingSession : Session :=
  { history := [], pending := some samplePending }

/-- Sample turn input. -/
def sampleInput : TurnInput := { text := "hi" }

/-- Sample front-end chat state. -/
def sampleChatState : ChatState :=
  { messages := [initialGreeting], input := "", selectedImage := none,
    isProcessing := false }

/-- Sample front-end chat state with an attached image and empty input. -/
def imageChatState : ChatState :=
  { messages := [initialGreeting], input := "",
    selectedImage := some ("data:image/jpeg;base64,AAA"), isProcessing := false }

/-- Sample front-end chat state while a previous turn is processing. -/
def procChatState : ChatState :=
  { messages := [initialGreeting], input := "question", selectedImage := none,
    isProcessing := true }

/-- Sample /upload response whose result_image is a relative path. -/
def sampleOverlayResponse : ChatResponse :=
  { status := "success", response := "Detected", agent := "BRAIN_TUMOR",
    result_image := some ("/static/overlay.png") }

/-- Sample /upload response whose result_image is present but empty. -/
def sampleEmptyImageResponse : ChatResponse :=
  { status := "success", response := "Detected", agent := "BRAIN_TUMOR",
    result_image := some ("") }

/-- Appending on the left preserves a string suffix test. -/
theorem jsEndsWith_append_left (a : String) {b c : String}
    (h : jsEndsWith c b = true) : jsEndsWith (a ++ c) b = true := by
  simp only [jsEndsWith, String.data_append] at *
  rw [List.isSuffixOf_iff_suffix] at *
  exact h.trans (List.suffix_append a.data c.data)

/-- Appending on the right preserves a string prefix test. -/
theorem jsStartsWith_append (a b p : String)
    (h : jsStartsWith a p = true) : jsStartsWith (a ++ b) p = true := by
  simp only [jsStartsWith, String.data_append] at *
  rw [List.isPrefixOf_iff_prefix] at *
  exact h.trans (List.prefix_append a.data b.data)

/-- C2: while a session's validation gate is PENDING, any processTurn call
is rejected with the pending-validation error, and — the call being a pure
function whose value is exactly that error — this is the only error it can
return while the session is pending. -/
theorem processTurn_pending_rejected (b : Backends) (now : Nat) (s : Session)
    (input : TurnInput) (hp : s.pending.isSome = true) :
    processTurn b now s input = .error .validationPending := by
  simp [processTurn, hp]

/-- Witness for the pending-rejection theorem at a concrete pending
session. -/
theorem processTurn_pending_rejected_witness :
    samplePendingSession.pending.isSome = true ∧
    processTurn sampleBackends 0 samplePendingSession sampleInput
      = .error .validationPending :=
  ⟨rfl, processTurn_pending_rejected sampleBackends 0 samplePendingSession
    sampleInput rfl⟩

/-- C3: every AgentResult produced by any of the three vision agents sets
requiresValidation to true, on every branch of the handler (validation
failure, invalid confidence, low confidence, normal finding). -/
theorem vision_requiresValidation (a : VisionAgent) (threshold : Rat)
    (infer : List Nat → InferOut) (img : List Nat) :
    (visionHandle a threshold infer img).requiresValidation = true := by
  unfold visionHandle
  split
  · rfl
  · dsimp only
    split
    · rfl
    · split <;> rfl

/-- C10: when the trimmed input is empty and no image is selected, or a
previous turn is still processing, handleSendMessage returns the state
unchanged and issues no API call. -/
theorem handleSendMessage_guard_noop (baseUrl : String) (s : ChatState)
    (oc : TurnOutcome)
    (h : (jsTrim s.input = "" ∧ s.selectedImage = none) ∨ s.isProcessing = true) :
    handleSendMessage baseUrl s oc = (s, none) := by
  have hg : sendGuard s = true := by
    rcases h with ⟨h1, h2⟩ | h3
    · simp [sendGuard, h1, h2]
    · simp [sendGuard, h3]
  simp [handleSendMessage, hg]

/-- Witness for the guard theorem at a concrete processing state. -/
theorem handleSendMessage_guard_noop_witness :
    ((jsTrim procChatState.input = "" ∧ procChatState.selectedImage = none) ∨
      procChatState.isProcessing = true) ∧
    handleSendMessage defaultApiBaseUrl procChatState TurnOutcome.failure
      = (procChatState, none) :=
  ⟨Or.inr rfl,
   handleSendMessage_guard_noop defaultApiBaseUrl procChatState
     TurnOutcome.failure (Or.inr rfl)⟩

/-- A successful processTurn only extends the session history. -/
theorem processTurn_history_extends (b : Backends) (now : Nat) (s : Session)
    (input : TurnInput) (sess2 : Session) (env : ResponseEnvelope)
    (h : processTurn b now s input = .ok (sess2, env)) :
    ∃ tail, sess2.history = s.history ++ tail := by
  unfold processTurn at h
  split at h
  · exact absurd h (by simp)
  · dsimp only at h
    split at h
    · obtain ⟨rfl, rfl⟩ := Prod.mk.injEq .. ▸ (Except.ok.injEq .. ▸ h)
      exact ⟨_, rfl⟩
    · split at h
      · obtain ⟨rfl, rfl⟩ := Prod.mk.injEq .. ▸ (Except.ok.injEq .. ▸ h)
        exact ⟨_, rfl⟩
      · obtain ⟨rfl, rfl⟩ := Prod.mk.injEq .. ▸ (Except.ok.injEq .. ▸ h)
        exact ⟨_, rfl⟩

/-- A successful processValidation only extends the session history. -/
theorem processValidation_history_extends (s : Session) (outcome : Bool)
    (comments : String) (sess2 : Session) (resp : ValidationResponse)
    (h : processValidation s outcome comments = .ok (sess2, resp)) :
    ∃ tail, sess2.history = s.history ++ tail := by
  unfold processValidation at h
  split at h
  · exact absurd h (by simp)
  · split at h
    · obtain ⟨rfl, rfl⟩ := Prod.mk.injEq .. ▸ (Except.ok.injEq .. ▸ h)
      exact ⟨_, rfl⟩
    · obtain ⟨rfl, rfl⟩ := Prod.mk.injEq .. ▸ (Except.ok.injEq .. ▸ h)
      exact ⟨_, rfl⟩

/-- C1: a validation submission with outcome yes on a session holding a
pending diagnostic result appends exactly one new entry to the
conversation history, tagged HUMAN_VALIDATED, whose content equals the
response text of the held AgentResult — on the front-end message list and
on the modelled backend session history alike. -/
theorem validation_yes_roundtrip (baseUrl : String) (sess : Session)
    (fs : ChatState) (pv : PendingValidation) (comments : String)
    (hp : sess.pending = some pv) :
    (validationRoundTrip baseUrl sess fs .yes comments).snd.messages
      = fs.messages ++
        [{ role := .assistant, content := pv.result.response,
           agent := some ("HUMAN_VALIDATED") }] ∧
    (validationRoundTrip baseUrl sess fs .yes comments).fst.history
      = sess.history ++ [validatedTurnOf pv] := by
  constructor <;>
    simp [validationRoundTrip, processValidation, hp, handleValidation,
      validationReply, validationChoiceValue]

/-- Witness for the round-trip theorem: outcome yes with comments "ok" on a
concrete pending brain-tumor session. -/
theorem validation_yes_roundtrip_witness :
    samplePendingSession.pending = some samplePending ∧
    ((validationRoundTrip defaultApiBaseUrl samplePendingSession
        sampleChatState .yes ("ok")).snd.messages
      = sampleChatState.messages ++
        [{ role := .assistant, content := samplePending.result.response,
           agent := some ("HUMAN_VALIDATED") }] ∧
     (validationRoundTrip defaultApiBaseUrl samplePendingSession
        sampleChatState .yes ("ok")).fst.history
      = samplePendingSession.history ++ [validatedTurnOf samplePending]) :=
  ⟨rfl, validation_yes_roundtrip defaultApiBaseUrl samplePendingSession
    sampleChatState samplePending ("ok") rfl⟩

/-- C5: chat history is append-only — every front-end operation other than
the explicit clear leaves the existing messages as a prefix and only
appends, a completed send appends the user turn first and the triggered
reply second, the explicit clear resets the list to the greeting; and
every successful call of the modelled backend entry points likewise only
extends the session history. -/
theorem history_append_only (baseUrl : String) (s : ChatState) (op : ChatOp) :
    (op ≠ ChatOp.clear →
      ∃ tail, (chatStep baseUrl s op).fst.messages = s.messages ++ tail) ∧
    (∀ oc : TurnOutcome, op = ChatOp.send oc → sendGuard s = false →
      (chatStep baseUrl s op).fst.messages
        = s.messages ++ [sentUserMessage s, sentReply oc]) ∧
    ((chatStep baseUrl s ChatOp.clear).fst.messages = [clearGreeting]) ∧
    (∀ (b : Backends) (now : Nat) (sess sess2 : Session) (input : TurnInput)
        (env : ResponseEnvelope),
      processTurn b now sess input = .ok (sess2, env) →
      ∃ tail, sess2.history = sess.history ++ tail) ∧
    (∀ (sess sess2 : Session) (outcome : Bool) (comments : String)
        (resp : ValidationResponse),
      processValidation sess outcome comments = .ok (sess2, resp) →
      ∃ tail, sess2.history = sess.history ++ tail) := by
  refine ⟨?_, ?_, rfl,
    fun b now sess sess2 input env h =>
      processTurn_history_extends b now sess input sess2 env h,
    fun sess sess2 outcome comments resp h =>
      processValidation_history_extends sess outcome comments sess2 resp h⟩
  · intro hne
    cases op with
    | send oc =>
        by_cases hg : sendGuard s
        · exact ⟨[], by simp [chatStep, handleSendMessage, hg]⟩
        · exact ⟨[sentUserMessage s, sentReply oc],
            by simp [chatStep, handleSendMessage, hg]⟩
    | validate c cm oc =>
        exact ⟨[validationReply oc], by simp [chatStep, handleValidation]⟩
    | typeInput t => exact ⟨[], by simp [chatStep]⟩
    | attachImage d => exact ⟨[], by simp [chatStep]⟩
    | removeImage => exact ⟨[], by simp [chatStep]⟩
    | clear => exact absurd rfl hne
  · rintro oc rfl hg
    simp [chatStep, handleSendMessage, hg]

/-- Witness for the append-only theorem: a completed send on a concrete
state appends the user message and the reply, in that order. -/
theorem history_append_only_witness :
    (∃ tail, (chatStep defaultApiBaseUrl procChatState
        (ChatOp.typeInput ("hi"))).fst.messages
      = procChatState.messages ++ tail) ∧
    (chatStep defaultApiBaseUrl imageChatState
        (ChatOp.send TurnOutcome.failure)).fst.messages
      = imageChatState.messages ++
        [sentUserMessage imageChatState, sentReply TurnOutcome.failure] := by
  constructor
  · exact (history_append_only defaultApiBaseUrl procChatState
      (ChatOp.typeInput ("hi"))).1 (fun h => ChatOp.noConfusion h)
  · exact (history_append_only defaultApiBaseUrl imageChatState
      (ChatOp.send TurnOutcome.failure)).2.1 TurnOutcome.failure rfl (by decide)

/-- C6: a validation submission posts form data with exactly the fields
validation_result — whose value, coming from the Yes/No buttons of the
Message component, is the string yes or no — and comments; the target URL
ends in /validate; a successful response carries status, message and
response. -/
theorem validate_request_contract (baseUrl comments : String)
    (choice : ValidationChoice) :
    ((sendValidationRequest baseUrl (validationChoiceValue choice) comments).fields
      = [("validation_result", validationChoiceValue choice),
         ("comments", comments)]) ∧
    (validationChoiceValue choice = "yes" ∨ validationChoiceValue choice = "no") ∧
    jsEndsWith
      (sendValidationRequest baseUrl (validationChoiceValue choice) comments).url
      ("/validate") = true ∧
    (∀ r : ValidationResponse, sendValidation (.success r)
      = .ok { status := r.status, message := r.message, response := r.response }) := by
  refine ⟨rfl, ?_, jsEndsWith_append_left baseUrl (by decide), fun r => rfl⟩
  cases choice
  · exact Or.inl rfl
  · exact Or.inr rfl

/-- C7: a text-only chat turn posts a JSON body with exactly the fields
query — the message string — and conversation_history — a (here always
empty) list; the target URL ends in /chat; a successful response carries
status, response, agent and the optional result_image. -/
theorem chat_request_contract (baseUrl message : String) :
    ((sendChatMessageRequest baseUrl message).fields.map Prod.fst
      = [("query"), ("conversation_history")]) ∧
    (List.lookup ("query") (sendChatMessageRequest baseUrl message).fields
      = some (JValue.str message)) ∧
    (∃ hist : List JValue,
      List.lookup ("conversation_history")
        (sendChatMessageRequest baseUrl message).fields
        = some (JValue.arr hist)) ∧
    jsEndsWith (sendChatMessageRequest baseUrl message).url ("/chat") = true ∧
    (∀ r : ChatResponse, sendChatMessage (.success r)
      = .ok { status := r.status, response := r.response, agent := r.agent,
              result_image := r.result_image }) :=
  ⟨rfl, rfl, ⟨[], rfl⟩, jsEndsWith_append_left baseUrl (by decide), fun _ => rfl⟩

/-- C8: a speech-generation request posts a JSON body with the field text
and the optional fields voice_id and language — present exactly when set
on the SpeechRequest — to a URL ending in /generate-speech, and on success
the raw binary payload of the response is returned unchanged. -/
theorem speech_request_contract (baseUrl : String) (r : SpeechRequest)
    (payload : List Nat) :
    (List.lookup ("text") (speechRequestFields r) = some (JValue.str r.text)) ∧
    (List.lookup ("voice_id") (speechRequestFields r)
      = Option.map JValue.str r.voice_id) ∧
    (List.lookup ("language") (speechRequestFields r)
      = Option.map JValue.str r.language) ∧
    ((speechRequestFields r).map Prod.fst
      = [("text")] ++ (r.voice_id.map fun _ => ("voice_id")).toList
          ++ (r.language.map fun _ => ("language")).toList) ∧
    jsEndsWith (generateSpeechRequest baseUrl r).url ("/generate-speech") = true ∧
    generateSpeech (.success payload) = .ok payload := by
  obtain ⟨t, vo, la⟩ := r
  cases vo <;> cases la <;>
    exact ⟨rfl, rfl, rfl, rfl, jsEndsWith_append_left baseUrl (by decide), rfl⟩

/-- Counterexample: a /upload response whose result_image is present but
empty is returned with result_image still the empty string, which does
not start with http — JavaScript truthiness skips the prefixing branch for
an empty string. -/
theorem uploadImage_empty_result_image :
    uploadImage defaultApiBaseUrl (.success sampleEmptyImageResponse)
      = .ok sampleEmptyImageResponse ∧
    sampleEmptyImageResponse.result_image = some ("") ∧
    jsStartsWith ("") ("http") = false := by
  refine ⟨?_, rfl, by decide⟩
  simp [uploadImage, uploadImageAdjust, sampleEmptyImageResponse]

/-- C9 (amended): for a /upload response whose result_image is present and
non-empty, provided the API base URL itself starts with http (true of the
default), the response handed to the caller has a result_image starting
with http — a value not already starting with http is prefixed with the
base URL — and the remaining fields are returned unchanged. -/
theorem uploadImage_result_image_http (baseUrl : String) (d : ChatResponse)
    (s : String) (hb : jsStartsWith baseUrl ("http") = true)
    (hp : d.result_image = some s) (hne : s ≠ "") :
    (∃ t, (uploadImageAdjust baseUrl d).result_image = some t ∧
      jsStartsWith t ("http") = true) ∧
    (jsStartsWith s ("http") = false →
      (uploadImageAdjust baseUrl d).result_image = some (baseUrl ++ s)) ∧
    (uploadImageAdjust baseUrl d).status = d.status ∧
    (uploadImageAdjust baseUrl d).response = d.response ∧
    (uploadImageAdjust baseUrl d).agent = d.agent := by
  have hmatch : uploadImageAdjust baseUrl d =
      if s ≠ "" ∧ jsStartsWith s ("http") = false then
        { d with result_image := some (baseUrl ++ s) }
      else d := by
    unfold uploadImageAdjust
    rw [hp]
  by_cases hs : jsStartsWith s ("http") = false
  · refine ⟨⟨baseUrl ++ s, ?_, jsStartsWith_append baseUrl s ("http") hb⟩,
      fun _ => ?_, ?_, ?_, ?_⟩ <;> simp [hmatch, hne, hs]
  · have hs2 : jsStartsWith s ("http") = true := by
      cases hval : jsStartsWith s ("http")
      · exact absurd hval hs
      · rfl
    refine ⟨⟨s, ?_, hs2⟩, fun hc => absurd hc hs, ?_, ?_, ?_⟩ <;>
      simp [hmatch, hs2, hp]

/-- Witness for the amended theorem: a concrete relative overlay path is
prefixed with the default base URL and then starts with http. -/
theorem uploadImage_result_image_http_witness :
    (∃ t, (uploadImageAdjust defaultApiBaseUrl sampleOverlayResponse).result_image
        = some t ∧ jsStartsWith t ("http") = true) ∧
    (jsStartsWith ("/static/overlay.png") ("http") = false →
      (uploadImageAdjust defaultApiBaseUrl sampleOverlayResponse).result_image
        = some (defaultApiBaseUrl ++ ("/static/overlay.png"))) ∧
    (uploadImageAdjust defaultApiBaseUrl sampleOverlayResponse).status
      = sampleOverlayResponse.status ∧
    (uploadImageAdjust defaultApiBaseUrl sampleOverlayResponse).response
      = sampleOverlayResponse.response ∧
    (uploadImageAdjust defaultApiBaseUrl sampleOverlayResponse).agent
      = sampleOverlayResponse.agent :=
  uploadImage_result_image_http defaultApiBaseUrl sampleOverlayResponse
    ("/static/overlay.png") (by decide) rfl (by decide)
